import Mathlib

/-!
# Quantum-Bitcoin-Vault: formal model of the WOTS-16 vault core

A shallow embedding of the repository's signature / script-construction
core (`winternitz.js`, `server.js`, and the covenant spend builder).
Bytes are modelled as `Nat` (values kept below 256 by construction),
buffers as `List Nat`.  SHA-256 and RIPEMD-160 are external primitives
(Node's `crypto` module); they are modelled as an explicit function
parameter `sha : Bytes → Bytes`, so every statement below is quantified
over the hash function and proved for all of them — all claims checked
here are structural (byte layout, ordering, arithmetic), not collision
properties of SHA-256 itself.
-/

set_option linter.unusedVariables false
set_option maxRecDepth 40000

namespace QBV

abbrev Bytes := List Nat

/-- 4-byte little-endian encoding (`Buffer.writeUInt32LE`). -/
def uint32LE (n : Nat) : Bytes :=
  [n % 256, n / 256 % 256, n / 65536 % 256, n / 16777216 % 256]

/-- 8-byte little-endian encoding (`Buffer.writeBigUInt64LE`). -/
def uint64LE (n : Nat) : Bytes :=
  [n % 256, n / 256 % 256, n / 65536 % 256, n / 16777216 % 256,
   n / 4294967296 % 256, n / 1099511627776 % 256,
   n / 281474976710656 % 256, n / 72057594037927936 % 256]

/-- `sha256(sha256(data))` — `hash256` of `winternitz.js`. -/
def hash256 (sha : Bytes → Bytes) (data : Bytes) : Bytes := sha (sha data)

/-- `iteratedSha256(data, iterations)`: apply `sha` `iterations` times. -/
def iteratedSha256 (sha : Bytes → Bytes) (data : Bytes) (iterations : Nat) : Bytes :=
  sha^[iterations] data

/-- Little-endian base-256 digits of `n` (the `while (n > 0)` byte loops). -/
def leBytes (n : Nat) : Bytes :=
  if n = 0 then [] else n % 256 :: leBytes (n / 256)
decreasing_by exact Nat.div_lt_self (Nat.pos_of_ne_zero (by assumption)) (by omega)

/-- `encodeVarInt` of `server.js` / `part_000`. -/
def encodeVarInt (n : Nat) : Bytes :=
  if n < 0xfd then [n]
  else if n ≤ 0xffff then [0xfd, n % 256, n / 256 % 256]
  else if n ≤ 0xffffffff then 0xfe :: uint32LE n
  else 0xff :: uint64LE n

/-- `encodePushData` of `winternitz.js`. -/
def encodePushData (data : Bytes) : Bytes :=
  match data with
  | [] => [0x00]
  | [b] =>
    if 1 ≤ b ∧ b ≤ 16 then [0x50 + b]
    else if b = 0x81 then [0x4f]
    else [1, b]
  | _ =>
    let len := data.length
    if len ≤ 75 then len :: data
    else if len ≤ 255 then 0x4c :: len :: data
    else if len ≤ 65535 then 0x4d :: (len % 256) :: (len / 256 % 256) :: data
    else 0x4e :: uint32LE len ++ data

/-- `encodeScriptNum` of `winternitz.js`, restricted to the non-negative
numbers the repository ever passes to it. -/
def encodeScriptNum (num : Nat) : Bytes :=
  if num = 0 then [0x00]
  else if num ≤ 16 then [0x50 + num]
  else
    let bytes := leBytes num
    let bytes := if 0x80 ≤ bytes.getLastD 0 then bytes ++ [0x00] else bytes
    encodePushData bytes

/-- `encodeLocktimeForScript` of `winternitz.js`. -/
def encodeLocktimeForScript (lockTime : Nat) : Bytes :=
  if lockTime ≤ 16 then [0x50 + lockTime]
  else
    let bytes := leBytes lockTime
    let data := if 0x80 ≤ bytes.getLastD 0 then bytes ++ [0x00] else bytes
    data.length :: data

-- Opcode constants used by the scripts (the `OP` table of `winternitz.js`).
def OP_0 : Nat := 0x00
def OP_2 : Nat := 0x52
def OP_4 : Nat := 0x54
def OP_8 : Nat := 0x58
def OP_IF : Nat := 0x63
def OP_ENDIF : Nat := 0x68
def OP_DROP : Nat := 0x75
def OP_DUP : Nat := 0x76
def OP_SWAP : Nat := 0x7c
def OP_EQUAL : Nat := 0x87
def OP_EQUALVERIFY : Nat := 0x88
def OP_DIV : Nat := 0x96
def OP_MOD : Nat := 0x97
def OP_SHA256 : Nat := 0xa8
def OP_CHECKLOCKTIMEVERIFY : Nat := 0xb1

-- WOTS-16 parameters (`WOTS16` table) and the 32-chunk parameters.
def CHUNKS : Nat := 32
def MAX_ITERATIONS : Nat := 256
def SCALAR_SIZE : Nat := 32
def WOTS16_CHUNKS : Nat := 64
def WOTS16_CHECKSUM_CHUNKS : Nat := 4
def WOTS16_TOTAL_CHUNKS : Nat := WOTS16_CHUNKS + WOTS16_CHECKSUM_CHUNKS
def CONFIG_MIN_OUTPUT : Nat := 546

-- =============================================================================
-- WOTS-16 keypair and signer (`winternitz.js`)
-- =============================================================================

/-- The WOTS-16 keypair record returned by `generateWOTS16Keypair`
(and rebuilt by `buildWOTS16CovenantTransaction` from a stored secret). -/
structure WOTS16Keypair where
  privateScalars : List Bytes
  publicCommitments : List Bytes
  publicKeyHash : Bytes
deriving Repr, DecidableEq

/-- `generateWOTS16Keypair`.  The `crypto.randomBytes` draws are modelled as
an explicit entropy stream `randomBytes : Nat → Bytes` giving the `i`-th draw. -/
def generateWOTS16Keypair (sha : Bytes → Bytes) (randomBytes : Nat → Bytes) : WOTS16Keypair :=
  let totalChunks := WOTS16_CHUNKS + WOTS16_CHECKSUM_CHUNKS
  let privateScalars := (List.range totalChunks).map randomBytes
  let publicCommitments := privateScalars.map fun scalar => sha^[15] scalar
  let concatenated := publicCommitments.flatten
  { privateScalars := privateScalars
    publicCommitments := publicCommitments
    publicKeyHash := sha concatenated }

/-- One signature chunk `{value, iterations, remaining}` of `signWOTS16`. -/
structure SigChunk where
  value : Bytes
  iterations : Nat
  remaining : Nat
deriving Repr, DecidableEq, Inhabited

/-- The record returned by `signWOTS16`. -/
structure WOTS16Signature where
  chunks : List SigChunk
  message : Bytes
  messageChunks : List Nat
deriving Repr, DecidableEq

/-- The nibble decomposition loop of `signWOTS16`: for each of the 32 bytes,
push `(message[i] >> 4) & 0x0F` then `message[i] & 0x0F`. -/
def wots16MessageNibbles (message : Bytes) : List Nat :=
  (List.range 32).flatMap fun i => [message.getD i 0 / 16 % 16, message.getD i 0 % 16]

/-- `signWOTS16(keypair, message)`.  Fails unless the message is 32 bytes. -/
def signWOTS16 (sha : Bytes → Bytes) (keypair : WOTS16Keypair) (message : Bytes) :
    Except String WOTS16Signature :=
  if message.length ≠ 32 then .error "Message must be 32 bytes"
  else
    let messageChunks := wots16MessageNibbles message
    -- `checksum += 15 - chunk` over all message nibbles
    let checksum := (messageChunks.map fun chunk => 15 - chunk).sum
    -- four nibbles emitted least-significant first (`checksum & 0x0F; checksum >>= 4`)
    let checksumChunks :=
      [checksum % 16, checksum / 16 % 16, checksum / 256 % 16, checksum / 4096 % 16]
    let allChunks := messageChunks ++ checksumChunks
    let signature := (List.range allChunks.length).map fun i =>
      let digit := allChunks.getD i 0
      { value := sha^[digit] (keypair.privateScalars.getD i [])
        iterations := digit
        remaining := 15 - digit : SigChunk }
    .ok { chunks := signature, message := message, messageChunks := allChunks }

-- =============================================================================
-- WOTS-16 locking script (`buildFullWOTS16LockingScript`)
-- =============================================================================

/-- Bit-0 conditional block: `DUP 2 MOD IF SWAP SHA256 SWAP ENDIF`
(hash once when `rem % 2` is set). -/
def wotsBit0Block : Bytes :=
  [OP_DUP, OP_2, OP_MOD, OP_IF, OP_SWAP, OP_SHA256, OP_SWAP, OP_ENDIF]

/-- Bit-1 conditional block: `DUP 2 DIV 2 MOD IF SWAP SHA256 SHA256 SWAP ENDIF`. -/
def wotsBit1Block : Bytes :=
  [OP_DUP, OP_2, OP_DIV, OP_2, OP_MOD, OP_IF, OP_SWAP,
   OP_SHA256, OP_SHA256, OP_SWAP, OP_ENDIF]

/-- Bit-2 conditional block: `DUP 4 DIV 2 MOD IF SWAP SHA256 ×4 SWAP ENDIF`. -/
def wotsBit2Block : Bytes :=
  [OP_DUP, OP_4, OP_DIV, OP_2, OP_MOD, OP_IF, OP_SWAP,
   OP_SHA256, OP_SHA256, OP_SHA256, OP_SHA256, OP_SWAP, OP_ENDIF]

/-- Bit-3 conditional block: `DUP 8 DIV 2 MOD IF SWAP SHA256 ×8 SWAP ENDIF`. -/
def wotsBit3Block : Bytes :=
  [OP_DUP, OP_8, OP_DIV, OP_2, OP_MOD, OP_IF, OP_SWAP,
   OP_SHA256, OP_SHA256, OP_SHA256, OP_SHA256,
   OP_SHA256, OP_SHA256, OP_SHA256, OP_SHA256, OP_SWAP, OP_ENDIF]

/-- The per-chunk verifier emitted by the loop body of
`buildFullWOTS16LockingScript`: swap, four bit-test blocks, drop the
revealed `remaining`, push the 32-byte commitment, then the equality check
(`OP_EQUALVERIFY`, or `OP_EQUAL` on the last chunk). -/
def wots16ChunkScript (commitment : Bytes) (isLast : Bool) : Bytes :=
  [OP_SWAP] ++ wotsBit0Block ++ wotsBit1Block ++ wotsBit2Block ++ wotsBit3Block
  ++ [OP_DROP, 0x20] ++ commitment
  ++ [if isLast then OP_EQUAL else OP_EQUALVERIFY]

/-- The optional leading time-lock guard of `buildFullWOTS16LockingScript`
(`lockTime && lockTime > 0`; a `null` lock time is modelled as `0`). -/
def wots16TimelockGuard (lockTime : Nat) : Bytes :=
  if 0 < lockTime then
    encodeLocktimeForScript lockTime ++ [OP_CHECKLOCKTIMEVERIFY, OP_DROP]
  else []

/-- `buildFullWOTS16LockingScript(publicKeyHash, publicCommitments, {lockTime})`.
The `publicKeyHash` argument is accepted but — exactly as in the source —
never used; only the 68 per-chunk commitments and the optional time-lock
are embedded. -/
def buildFullWOTS16LockingScript (publicKeyHash : Bytes) (publicCommitments : List Bytes)
    (lockTime : Nat) : Bytes :=
  wots16TimelockGuard lockTime
  ++ (List.range WOTS16_TOTAL_CHUNKS).flatMap fun i =>
      wots16ChunkScript (publicCommitments.getD i [])
        (decide ¬ (i < WOTS16_TOTAL_CHUNKS - 1))

-- =============================================================================
-- WOTS-16 unlocking scripts
-- =============================================================================

/-- The per-chunk data pushes of `buildWOTS16UnlockingScriptWithCovenant`
(`winternitz.js`): push `remaining`, then the 32-byte chunk value. -/
def pushChunkW (chunk : SigChunk) : Bytes :=
  (if chunk.remaining = 0 then [OP_0]
   else if chunk.remaining ≤ 16 then [0x50 + chunk.remaining]
   else encodeScriptNum chunk.remaining)
  ++ [0x20] ++ chunk.value

/-- The per-chunk data pushes of the covenant spend builder
(`buildWOTS16CovenantTransaction`, `part_000`): identical layout except the
(unreachable) `remaining > 16` case emits `[0x01, remaining]` directly. -/
def pushChunkC (chunk : SigChunk) : Bytes :=
  (if chunk.remaining = 0 then [0x00]
   else if chunk.remaining ≤ 16 then [0x50 + chunk.remaining]
   else [0x01, chunk.remaining])
  ++ [0x20] ++ chunk.value

/-- `buildWOTS16UnlockingScriptWithCovenant(signature, sighashPreimage,
covenantSignature)` (`winternitz.js`): chunk pushes in reverse chunk order
(`for i = length-1 downto 0`), then the covenant signature push, then the
sighash preimage push. -/
def buildWOTS16UnlockingScriptWithCovenant (chunks : List SigChunk)
    (sighashPreimage covenantSignature : Bytes) : Bytes :=
  ((List.range chunks.length).reverse.flatMap fun i => pushChunkW (chunks.getD i default))
  ++ encodePushData covenantSignature
  ++ encodePushData sighashPreimage

/-- The `unlockParts` assembly inside `buildWOTS16CovenantTransaction`
(`part_000`, lines 582–603): sighash preimage push first, then the
type-tagged ECDSA covenant signature push, then the chunk pushes in
reverse chunk order. -/
def wots16CovenantUnlockingScript (preimage ecdsaSigWithType : Bytes)
    (chunks : List SigChunk) : Bytes :=
  encodePushData preimage
  ++ encodePushData ecdsaSigWithType
  ++ (List.range chunks.length).reverse.flatMap fun i => pushChunkC (chunks.getD i default)

/-- Modelled from the spec's words (for refinement comparison only, not from
the source): the claimed unlocking-script order "outer-covenant-signature
first, then the preimage, then the WOTS16 chunks". -/
def specClaimedCovenantUnlockingOrder (covenantSignature preimage : Bytes)
    (chunks : List SigChunk) : Bytes :=
  encodePushData covenantSignature
  ++ encodePushData preimage
  ++ (List.range chunks.length).reverse.flatMap fun i => pushChunkC (chunks.getD i default)

-- =============================================================================
-- Standard-tier locking script
-- =============================================================================

/-- `buildStandardLockingScript(publicKeyHash)`:
`OP_SHA256 <push-32> <hash> OP_EQUAL`. -/
def buildStandardLockingScript (publicKeyHash : Bytes) : Bytes :=
  [OP_SHA256] ++ [0x20] ++ publicKeyHash ++ [OP_EQUAL]

-- =============================================================================
-- BIP143 sighash builder (`createBIP143Sighash`, `server.js`)
-- =============================================================================

/-- A funding UTXO as consumed by the transaction builders
(`{tx_hash, tx_pos, value}`; `tx_hash` is the hex-decoded txid, which the
source reverses before serializing). -/
structure UTXO where
  tx_hash : Bytes
  tx_pos : Nat
  value : Nat
deriving Repr, DecidableEq, Inhabited

/-- The 36-byte outpoint serialization `reverse(txid) ++ uint32LE(vout)`. -/
def outpointOf (u : UTXO) : Bytes := u.tx_hash.reverse ++ uint32LE u.tx_pos

/-- `createBIP143Sighash(utxos, inputIndex, scriptCode, inputValue,
outputScript, outputValue)` (`server.js`): the BIP143-style preimage and
its double SHA-256. -/
def createBIP143Sighash (sha : Bytes → Bytes) (utxos : List UTXO) (inputIndex : Nat)
    (scriptCode : Bytes) (inputValue : Nat) (outputScript : Bytes) (outputValue : Nat) :
    Bytes :=
  let prevouts := utxos.flatMap outpointOf
  let hashPrevouts := hash256 sha prevouts
  let sequences := List.replicate (utxos.length * 4) 0xff
  let hashSequence := hash256 sha sequences
  let spent := utxos.getD inputIndex default
  let outputs := uint64LE outputValue ++ encodeVarInt outputScript.length ++ outputScript
  let preimage :=
    [0x01, 0x00, 0x00, 0x00]
    ++ hashPrevouts
    ++ hashSequence
    ++ spent.tx_hash.reverse ++ uint32LE spent.tx_pos
    ++ encodeVarInt scriptCode.length ++ scriptCode
    ++ uint64LE inputValue
    ++ [0xff, 0xff, 0xff, 0xff]
    ++ hash256 sha outputs
    ++ [0x00, 0x00, 0x00, 0x00]
    ++ [0x41, 0x00, 0x00, 0x00]
  hash256 sha preimage

-- =============================================================================
-- Sweep transactions (`buildSweepTransaction` in `server.js`,
-- `buildStandardSweepTransaction` in `part_000`)
-- =============================================================================

/-- The 32-chunk Winternitz keypair record (fields actually consumed by the
sweep/restore paths: the private scalars, the commitments, their
concatenation, and the aggregate hash). -/
structure WKeypair where
  privateScalars : List Bytes
  publicCommitments : List Bytes
  publicConcatenated : Bytes
  publicKeyHash : Bytes
deriving Repr, DecidableEq

/-- A vault record as consumed by the sweep builders: the restored keypair
and the locking script. -/
structure Vault where
  keypair : WKeypair
  lockingScript : Bytes
deriving Repr, DecidableEq

/-- `buildUnlockingScript(vault)` (`winternitz.js`): length-prefixed push of
the public-key concatenation preimage. -/
def buildUnlockingScript (vault : Vault) : Bytes :=
  let wotsPreimage := vault.keypair.publicConcatenated
  (if wotsPreimage.length ≤ 75 then [wotsPreimage.length]
   else if wotsPreimage.length ≤ 255 then [0x4c, wotsPreimage.length]
   else [0x4d, wotsPreimage.length % 256, wotsPreimage.length / 256 % 256])
  ++ wotsPreimage

/-- The record returned by `createUnlockingData`. -/
structure UnlockingData where
  wotsPreimage : Bytes
  scriptSig : Bytes
  preimageSize : Nat
deriving Repr, DecidableEq

/-- `createUnlockingData(vault)` (`winternitz.js`): re-checks that the
preimage hashes to the stored public-key hash, then builds the scriptSig. -/
def createUnlockingData (sha : Bytes → Bytes) (vault : Vault) :
    Except String UnlockingData :=
  let wotsPreimage := vault.keypair.publicConcatenated
  let expectedHash := sha wotsPreimage
  if expectedHash ≠ vault.keypair.publicKeyHash then
    .error "Preimage verification failed"
  else
    .ok { wotsPreimage := wotsPreimage
          scriptSig := buildUnlockingScript vault
          preimageSize := wotsPreimage.length }

def BASE58_ALPHABET : List Char :=
  "123456789ABCDEFGHJKLMNPQRSTUVWXYZabcdefghijkmnopqrstuvwxyz".toList

/-- `base58Decode(str)` (`server.js` / `part_000`), including the quirk that
a zero numeric value still contributes the byte `0x00` (from hex-padding
`"0"` to `"00"`). -/
def base58Decode (str : List Char) : Except String Bytes :=
  if str.length = 0 then .ok []
  else do
    let num ← str.foldlM (fun (num : Nat) c =>
      match BASE58_ALPHABET.indexOf? c with
      | none => .error "Invalid base58 character"
      | some index => .ok (num * 58 + index)) 0
    let bytes := if num = 0 then [0x00] else (leBytes num).reverse
    let leadingZeros := (str.takeWhile fun c => c = '1').length
    .ok (List.replicate leadingZeros 0 ++ bytes)

/-- `buildOutputScript(address)` (`server.js`): P2PKH only; the address must
start with `'1'`. -/
def buildOutputScript (address : List Char) : Except String Bytes :=
  if address.head? = some '1' then do
    let decoded ← base58Decode address
    let pubKeyHash := (decoded.drop 1).take 20
    .ok ([0x76, 0xa9, 0x14] ++ pubKeyHash ++ [0x88, 0xac])
  else
    .error "Invalid destination address. Must start with \"1\" (P2PKH)"

/-- `buildRawTransaction(utxos, lockingScript, scriptSig, outputScript,
outputValue)` (`server.js`; the `lockingScript` parameter is unused there
too). -/
def buildRawTransaction (utxos : List UTXO) (lockingScript scriptSig outputScript : Bytes)
    (outputValue : Nat) : Bytes :=
  [0x01, 0x00, 0x00, 0x00]
  ++ encodeVarInt utxos.length
  ++ (utxos.flatMap fun utxo =>
        utxo.tx_hash.reverse
        ++ uint32LE utxo.tx_pos
        ++ encodeVarInt scriptSig.length ++ scriptSig
        ++ [0xff, 0xff, 0xff, 0xff])
  ++ encodeVarInt 1
  ++ uint64LE outputValue
  ++ encodeVarInt outputScript.length ++ outputScript
  ++ [0x00, 0x00, 0x00, 0x00]

/-- The result record of the sweep builders. -/
structure SweepResult where
  rawTx : Bytes
  txid : Bytes
  fee : Int
  outputValue : Int
  inputValue : Int
  size : Nat
  inputs : Nat
deriving Repr, DecidableEq

/-- The fee computed by `buildSweepTransaction` (`server.js`):
`ceil(estimatedSize * feeRate)` over its size estimate. -/
def sweepFeeServer (preimageSize : Nat) (inputCount : Nat) (feeRate : ℚ) : Int :=
  let scriptSigSize := 2 + preimageSize
  let inputSize := 32 + 4 + 1 + scriptSigSize + 4
  let outputSize := 8 + 1 + 25
  let txOverhead := 4 + 1 + 1 + 4
  let estimatedSize := txOverhead + inputCount * inputSize + outputSize
  ⌈(estimatedSize : ℚ) * feeRate⌉

/-- The fee computed by `buildStandardSweepTransaction` (`part_000`); same
shape with a 3-byte push/length estimate instead of 2/1. -/
def sweepFeeStandard (preimageSize : Nat) (inputCount : Nat) (feeRate : ℚ) : Int :=
  let scriptSigSize := 3 + preimageSize
  let inputSize := 32 + 4 + 3 + scriptSigSize + 4
  let outputSize := 8 + 1 + 25
  let txOverhead := 4 + 1 + 1 + 4
  let estimatedSize := txOverhead + inputCount * inputSize + outputSize
  ⌈(estimatedSize : ℚ) * feeRate⌉

/-- The insufficient-funds message of `buildSweepTransaction` (`server.js`). -/
def insufficientMsgServer (totalInput fee outputValue : Int) : String :=
  s!"Insufficient funds: {totalInput} sats - {fee} fee = {outputValue} (minimum {CONFIG_MIN_OUTPUT})"

/-- The insufficient-funds message of `buildStandardSweepTransaction`
(`part_000`). -/
def insufficientMsgStandard (totalInput fee outputValue : Int) : String :=
  s!"Insufficient funds: {totalInput} sats - {fee} fee = {outputValue}"

/-- `buildSweepTransaction(utxos, vault, toAddress, feeRate)` (`server.js`). -/
def buildSweepTransaction (sha : Bytes → Bytes) (utxos : List UTXO) (vault : Vault)
    (toAddress : List Char) (feeRate : ℚ) : Except String SweepResult :=
  let totalInput : Int := (utxos.map fun u => (u.value : Int)).sum
  match createUnlockingData sha vault with
  | .error e => .error e
  | .ok unlockData =>
    let fee := sweepFeeServer unlockData.preimageSize utxos.length feeRate
    let outputValue := totalInput - fee
    if outputValue < (CONFIG_MIN_OUTPUT : Int) then
      .error (insufficientMsgServer totalInput fee outputValue)
    else
      match buildOutputScript toAddress with
      | .error e => .error e
      | .ok outputScript =>
        let rawTx := buildRawTransaction utxos vault.lockingScript unlockData.scriptSig
          outputScript outputValue.toNat
        .ok { rawTx := rawTx
              txid := (hash256 sha rawTx).reverse
              fee := fee
              outputValue := outputValue
              inputValue := totalInput
              size := rawTx.length
              inputs := utxos.length }

/-- `buildStandardSweepTransaction(utxos, vault, toAddress, feeRate)`
(`part_000`); the destination script is built before the unlocking data
there. -/
def buildStandardSweepTransaction (sha : Bytes → Bytes) (utxos : List UTXO) (vault : Vault)
    (toAddress : List Char) (feeRate : ℚ) : Except String SweepResult :=
  let totalInput : Int := (utxos.map fun u => (u.value : Int)).sum
  match buildOutputScript toAddress with
  | .error e => .error e
  | .ok outputScript =>
    match createUnlockingData sha vault with
    | .error e => .error e
    | .ok unlockData =>
      let fee := sweepFeeStandard unlockData.preimageSize utxos.length feeRate
      let outputValue := totalInput - fee
      if outputValue < (CONFIG_MIN_OUTPUT : Int) then
        .error (insufficientMsgStandard totalInput fee outputValue)
      else
        let rawTx := buildRawTransaction utxos vault.lockingScript unlockData.scriptSig
          outputScript outputValue.toNat
        .ok { rawTx := rawTx
              txid := (hash256 sha rawTx).reverse
              fee := fee
              outputValue := outputValue
              inputValue := totalInput
              size := rawTx.length
              inputs := utxos.length }

-- =============================================================================
-- Vault restoration (`restoreVaultFromSecret`, `winternitz.js`) and the
-- WOTS-16 keypair reconstruction of `buildWOTS16CovenantTransaction`
-- =============================================================================

/-- The `wots16` sub-object of a version-4 vault secret (hex fields decoded
to bytes). -/
structure WOTS16SecretData where
  privateScalars : List Bytes
  publicCommitments : List Bytes
  publicKeyHash : Bytes
deriving Repr, DecidableEq

/-- A decoded vault-secret JSON object (the fields the restore path reads;
hex strings decoded to bytes, a missing/empty field modelled as `[]` —
both are falsy to the source's `!secret.privateKey` check). -/
structure Secret where
  privateKey : Bytes
  publicKeyHash : Bytes
  lockingScript : Bytes
  wots16 : Option WOTS16SecretData
deriving Repr, DecidableEq

/-- `restoreKeypairFromPrivate(privateKeyHex)` (`winternitz.js`): slice the
concatenated scalars, recompute all commitments with 256 hash iterations,
and recompute the aggregate hash. -/
def restoreKeypairFromPrivate (sha : Bytes → Bytes) (privateKeyConcatenated : Bytes) :
    Except String WKeypair :=
  if privateKeyConcatenated.length ≠ CHUNKS * SCALAR_SIZE then
    .error "Invalid private key length"
  else
    let privateScalars := (List.range CHUNKS).map fun i =>
      (privateKeyConcatenated.drop (i * SCALAR_SIZE)).take SCALAR_SIZE
    let publicCommitments := privateScalars.map fun scalar =>
      iteratedSha256 sha scalar MAX_ITERATIONS
    let publicKeyConcatenated := publicCommitments.flatten
    .ok { privateScalars := privateScalars
          publicCommitments := publicCommitments
          publicConcatenated := publicKeyConcatenated
          publicKeyHash := sha publicKeyConcatenated }

/-- The public-key hash that `restoreKeypairFromPrivate` recomputes from the
raw scalars (named here so theorems can refer to it). -/
def recomputedPublicKeyHash (sha : Bytes → Bytes) (privateKeyConcatenated : Bytes) : Bytes :=
  sha ((((List.range CHUNKS).map fun i =>
      (privateKeyConcatenated.drop (i * SCALAR_SIZE)).take SCALAR_SIZE).map fun scalar =>
    iteratedSha256 sha scalar MAX_ITERATIONS).flatten)

/-- The vault record returned by `restoreVaultFromSecret` (the fields the
claims are about). -/
structure VaultRecord where
  keypair : WKeypair
  lockingScript : Bytes
  publicKeyHash : Bytes
deriving Repr, DecidableEq

/-- `restoreVaultFromSecret(secretBase64)` (`winternitz.js`): rebuild the
32-chunk keypair from the raw scalars and fail with a corrupted-secret
error when the recomputed hash mismatches the stored one.  The `wots16`
sub-object is never inspected. -/
def restoreVaultFromSecret (sha : Bytes → Bytes) (secret : Secret) :
    Except String VaultRecord :=
  if secret.privateKey = [] ∨ secret.publicKeyHash = [] then
    .error "Invalid secret: missing required fields"
  else
    match restoreKeypairFromPrivate sha secret.privateKey with
    | .error e => .error e
    | .ok keypair =>
      if keypair.publicKeyHash ≠ secret.publicKeyHash then
        .error "Corrupted secret: public key hash mismatch"
      else
        let lockingScript :=
          if secret.lockingScript ≠ [] then secret.lockingScript
          else buildStandardLockingScript keypair.publicKeyHash
        .ok { keypair := keypair
              lockingScript := lockingScript
              publicKeyHash := keypair.publicKeyHash }

/-- The WOTS-16 keypair reconstruction at the top of
`buildWOTS16CovenantTransaction` (`part_000`, lines 508–513): every field is
taken from the stored secret as-is; nothing is recomputed or cross-checked. -/
def wots16KeypairFromSecret (w : WOTS16SecretData) : WOTS16Keypair :=
  { privateScalars := w.privateScalars
    publicCommitments := w.publicCommitments
    publicKeyHash := w.publicKeyHash }

-- =============================================================================
-- Helper lemmas
-- =============================================================================

/-- An index loop `for i in 0..<l.length` concatenating `f l[i]` is the same
as a direct traversal. -/
theorem flatMap_range_getD {α β : Type} (f : α → List β) (d : α) (l : List α) :
    ((List.range l.length).flatMap fun i => f (l.getD i d)) = l.flatMap f := by
  induction l with
  | nil => rfl
  | cons a t ih =>
    simp only [List.length_cons, List.range_succ_eq_map, List.flatMap_cons,
      List.flatMap_map, List.getD_cons_zero]
    have h : (fun i => f ((a :: t).getD i.succ d)) = fun i => f (t.getD i d) := by
      funext i; rw [List.getD_cons_succ]
    rw [h, ih]

/-- A downward index loop `for i = l.length-1 downto 0` concatenating
`f l[i]` is the same as a traversal of the reversed list. -/
theorem flatMap_range_reverse_getD {α β : Type} (f : α → List β) (d : α) (l : List α) :
    ((List.range l.length).reverse.flatMap fun i => f (l.getD i d)) = l.reverse.flatMap f := by
  induction l using List.reverseRecOn with
  | nil => rfl
  | append_singleton xs x ih =>
    rw [List.length_append, List.length_cons, List.length_nil, List.range_succ,
      List.reverse_append, List.reverse_append]
    simp only [List.reverse_cons, List.reverse_nil, List.nil_append, List.cons_append,
      List.flatMap_cons, List.flatMap_append]
    have h1 : (xs ++ [x]).getD xs.length d = x := by
      rw [List.getD_eq_getElem?_getD, List.getElem?_append_right (Nat.le_refl _)]
      simp
    have h2 : ((List.range xs.length).reverse.flatMap fun i => f ((xs ++ [x]).getD i d))
        = (List.range xs.length).reverse.flatMap fun i => f (xs.getD i d) := by
      apply List.flatMap_congr
      intro i hi
      rw [List.mem_reverse, List.mem_range] at hi
      rw [List.getD_append _ _ _ _ hi]
    rw [h1, h2, ih]

/-- Splitting every byte into two nibbles doubles the length. -/
theorem length_nibble_flatMap (l : List Nat) :
    (l.flatMap fun b => [b / 16 % 16, b % 16]).length = 2 * l.length := by
  induction l with
  | nil => rfl
  | cons a t ih => simp [List.flatMap_cons, ih]; omega

-- =============================================================================
-- C9 — Standard-tier locking script layout
-- =============================================================================

/-- C9: for every 32-byte public-key hash, the Standard-tier locking script
is exactly the 35 bytes `OP_SHA256 (0xa8), push-32 (0x20), the hash,
OP_EQUAL (0x87)` in that order. -/
theorem standardLockingScript_layout (publicKeyHash : Bytes)
    (hlen : publicKeyHash.length = 32) :
    buildStandardLockingScript publicKeyHash
      = [0xa8, 0x20] ++ publicKeyHash ++ [0x87]
    ∧ (buildStandardLockingScript publicKeyHash).length = 35 := by
  refine ⟨rfl, ?_⟩
  simp [buildStandardLockingScript, hlen]

/-- Witness for C9 at the all-zero 32-byte hash. -/
theorem standardLockingScript_layout_witness :
    buildStandardLockingScript (List.replicate 32 0)
      = [0xa8, 0x20] ++ List.replicate 32 0 ++ [0x87]
    ∧ (buildStandardLockingScript (List.replicate 32 0)).length = 35 :=
  standardLockingScript_layout (List.replicate 32 0) (by simp)

-- =============================================================================
-- C10 — the WOTS-16 locking script never embeds the aggregate hash
-- =============================================================================

/-- C10: `buildFullWOTS16LockingScript` is independent of its
`publicKeyHash` argument — any two values give byte-identical scripts, so
only the per-chunk commitments and the optional time-lock are embedded. -/
theorem fullWOTS16LockingScript_ignores_publicKeyHash (A B : Bytes)
    (publicCommitments : List Bytes) (lockTime : Nat) :
    buildFullWOTS16LockingScript A publicCommitments lockTime
      = buildFullWOTS16LockingScript B publicCommitments lockTime := rfl

-- =============================================================================
-- C4 — WOTS-16 keypair structure
-- =============================================================================

/-- C4: every keypair from `generateWOTS16Keypair` has exactly 68 private
scalars, its commitment list is the scalar list mapped through exactly 15
SHA-256 applications (in chunk order), and its public-key hash is the hash
of the concatenation of the commitments in chunk order. -/
theorem generateWOTS16Keypair_structure (sha : Bytes → Bytes) (randomBytes : Nat → Bytes) :
    (generateWOTS16Keypair sha randomBytes).privateScalars.length = 68
    ∧ (generateWOTS16Keypair sha randomBytes).publicCommitments
        = ((generateWOTS16Keypair sha randomBytes).privateScalars.map fun scalar =>
            sha^[15] scalar)
    ∧ (generateWOTS16Keypair sha randomBytes).publicKeyHash
        = sha (generateWOTS16Keypair sha randomBytes).publicCommitments.flatten := by
  refine ⟨?_, rfl, rfl⟩
  simp [generateWOTS16Keypair, WOTS16_CHUNKS, WOTS16_CHECKSUM_CHUNKS]

-- =============================================================================
-- C1 — BIP143 sighash preimage layout
-- =============================================================================

/-- C1: `createBIP143Sighash` returns the double SHA-256 of the preimage
built, in this exact order, from: the 4-byte LE version, the double-SHA256
of all input outpoints, the double-SHA256 of all sequence numbers, the
36-byte outpoint being spent, the varint-length-prefixed scriptCode, the
8-byte LE spent-output value, the input's 4-byte sequence number
(`ffffffff`), the double-SHA256 of the serialized new outputs, the 4-byte
lock time, and the fixed tag bytes `41 00 00 00`. -/
theorem createBIP143Sighash_layout (sha : Bytes → Bytes) (utxos : List UTXO)
    (inputIndex : Nat) (scriptCode : Bytes) (inputValue : Nat)
    (outputScript : Bytes) (outputValue : Nat)
    (hidx : inputIndex < utxos.length)
    (htxid : ∀ u ∈ utxos, u.tx_hash.length = 32) :
    createBIP143Sighash sha utxos inputIndex scriptCode inputValue outputScript outputValue
      = hash256 sha (
          [0x01, 0x00, 0x00, 0x00]
          ++ hash256 sha (utxos.flatMap outpointOf)
          ++ hash256 sha (List.replicate (utxos.length * 4) 0xff)
          ++ outpointOf (utxos.getD inputIndex default)
          ++ (encodeVarInt scriptCode.length ++ scriptCode)
          ++ uint64LE inputValue
          ++ [0xff, 0xff, 0xff, 0xff]
          ++ hash256 sha (uint64LE outputValue
               ++ encodeVarInt outputScript.length ++ outputScript)
          ++ [0x00, 0x00, 0x00, 0x00]
          ++ [0x41, 0x00, 0x00, 0x00])
    ∧ (outpointOf (utxos.getD inputIndex default)).length = 36 := by
  constructor
  · simp [createBIP143Sighash, outpointOf]
  · have hmem : utxos.getD inputIndex default ∈ utxos := by
      rw [List.getD_eq_getElem?_getD, List.getElem?_eq_getElem hidx]
      exact List.getElem_mem hidx
    have h32 := htxid _ hmem
    simp only [List.getD_eq_getElem?_getD] at h32
    simp [outpointOf, uint32LE, h32]

/-- A concrete all-zero funding input used by the witnesses below. -/
def witnessUtxo : UTXO := { tx_hash := List.replicate 32 0, tx_pos := 0, value := 1000 }

/-- Witness for C1 at a single all-zero funding input. -/
theorem createBIP143Sighash_layout_witness :
    (outpointOf (([witnessUtxo]).getD 0 default)).length = 36 :=
  (createBIP143Sighash_layout (fun _ => [0]) [witnessUtxo]
    0 [] 0 [] 0 (by decide) (by decide)).2

-- =============================================================================
-- C6 — chunk-ending combinators of the WOTS-16 locking script
-- =============================================================================

/-- C6: the full WOTS-16 locking script is the optional time-lock guard
followed by the 68 chunk verifiers in order; every chunk verifier but the
last ends in `OP_EQUALVERIFY` (0x88) and the last (chunk 67) ends in
`OP_EQUAL` (0x87). -/
theorem fullWOTS16LockingScript_chunkEndings (publicKeyHash : Bytes)
    (publicCommitments : List Bytes) (lockTime : Nat) (i : Nat) (hi : i < 68) :
    buildFullWOTS16LockingScript publicKeyHash publicCommitments lockTime
      = wots16TimelockGuard lockTime
        ++ (List.range 68).flatMap (fun j =>
            wots16ChunkScript (publicCommitments.getD j []) (decide ¬ (j < 67)))
    ∧ (wots16ChunkScript (publicCommitments.getD i []) (decide ¬ (i < 67))).getLast?
        = some (if i < 67 then OP_EQUALVERIFY else OP_EQUAL) := by
  constructor
  · rfl
  · have hlast : ∀ (c : Bytes) (b : Bool),
        (wots16ChunkScript c b).getLast? = some (if b then OP_EQUAL else OP_EQUALVERIFY) := by
      intro c b
      unfold wots16ChunkScript
      rw [List.getLast?_concat]
    rw [hlast]
    by_cases h : i < 67 <;> simp [h]

/-- Witness for C6 at chunk 0 and the empty commitment list. -/
theorem fullWOTS16LockingScript_chunkEndings_witness :
    (wots16ChunkScript (([] : List Bytes).getD 0 []) (decide ¬ (0 < 67))).getLast?
      = some (if 0 < 67 then OP_EQUALVERIFY else OP_EQUAL) :=
  (fullWOTS16LockingScript_chunkEndings [] [] 0 0 (by decide)).2

-- =============================================================================
-- C5 — per-chunk binary-decomposition hash gadget
-- =============================================================================

/-- C5: each chunk verifier consists of exactly the four conditional blocks
testing bits 0–3 of the revealed `remaining` value (via `OP_MOD`/`OP_DIV`
by 2, 4, 8), containing respectively 1, 2, 4 and 8 `OP_SHA256` opcodes
(and one `OP_IF` each), before the equality check against the embedded
commitment; hence for every `remaining ≤ 15` the bit-selected hash
applications total exactly `remaining`. -/
theorem wots16ChunkGadget_structure (commitment : Bytes) (isLast : Bool)
    (remaining : Nat) (hr : remaining ≤ 15) :
    wots16ChunkScript commitment isLast
      = [OP_SWAP] ++ wotsBit0Block ++ wotsBit1Block ++ wotsBit2Block ++ wotsBit3Block
        ++ [OP_DROP, 0x20] ++ commitment
        ++ [if isLast then OP_EQUAL else OP_EQUALVERIFY]
    ∧ wotsBit0Block.count OP_SHA256 = 1
    ∧ wotsBit1Block.count OP_SHA256 = 2
    ∧ wotsBit2Block.count OP_SHA256 = 4
    ∧ wotsBit3Block.count OP_SHA256 = 8
    ∧ wotsBit0Block.count OP_IF = 1
    ∧ wotsBit1Block.count OP_IF = 1
    ∧ wotsBit2Block.count OP_IF = 1
    ∧ wotsBit3Block.count OP_IF = 1
    ∧ remaining % 2 * wotsBit0Block.count OP_SHA256
      + remaining / 2 % 2 * wotsBit1Block.count OP_SHA256
      + remaining / 4 % 2 * wotsBit2Block.count OP_SHA256
      + remaining / 8 % 2 * wotsBit3Block.count OP_SHA256 = remaining := by
  refine ⟨rfl, by decide, by decide, by decide, by decide,
    by decide, by decide, by decide, by decide, ?_⟩
  rw [show wotsBit0Block.count OP_SHA256 = 1 from by decide,
    show wotsBit1Block.count OP_SHA256 = 2 from by decide,
    show wotsBit2Block.count OP_SHA256 = 4 from by decide,
    show wotsBit3Block.count OP_SHA256 = 8 from by decide]
  omega

/-- Witness for C5 at `remaining = 15`. -/
theorem wots16ChunkGadget_structure_witness :
    15 % 2 * wotsBit0Block.count OP_SHA256
      + 15 / 2 % 2 * wotsBit1Block.count OP_SHA256
      + 15 / 4 % 2 * wotsBit2Block.count OP_SHA256
      + 15 / 8 % 2 * wotsBit3Block.count OP_SHA256 = 15 :=
  (wots16ChunkGadget_structure [] true 15 (by decide)).2.2.2.2.2.2.2.2.2

-- =============================================================================
-- C3 — WOTS-16 nibble decomposition and checksum encoding
-- =============================================================================

/-- The checksum accumulated by `signWOTS16`: `Σ (15 − nibble)` over the 64
message nibbles of a message (named for use in theorem statements). -/
def wots16Checksum (nibbles : List Nat) : Nat :=
  (nibbles.map fun chunk => 15 - chunk).sum

/-- C3: for every 32-byte message, `signWOTS16` splits it into 64 nibbles
(high nibble first within each byte, bytes in order), sums `15 − nibble`
over all 64 message nibbles, and appends exactly 4 checksum nibbles emitted
least-significant-nibble-first from that sum; the 4 emitted nibbles are the
base-16 digits of the sum reduced modulo 2^16 for *every* value of the sum
(silent truncation, never saturation or extended precision). -/
theorem signWOTS16_nibbles_checksum (sha : Bytes → Bytes) (keypair : WOTS16Keypair)
    (message : Bytes) (hlen : message.length = 32) :
    (∃ sig, signWOTS16 sha keypair message = .ok sig
      ∧ sig.messageChunks
          = (message.flatMap fun b => [b / 16 % 16, b % 16])
            ++ [wots16Checksum (message.flatMap fun b => [b / 16 % 16, b % 16]) % 16,
                wots16Checksum (message.flatMap fun b => [b / 16 % 16, b % 16]) / 16 % 16,
                wots16Checksum (message.flatMap fun b => [b / 16 % 16, b % 16]) / 256 % 16,
                wots16Checksum (message.flatMap fun b => [b / 16 % 16, b % 16]) / 4096 % 16]
      ∧ (message.flatMap fun b => [b / 16 % 16, b % 16]).length = 64)
    ∧ (∀ s : Nat,
        s % 16 + 16 * (s / 16 % 16) + 256 * (s / 256 % 16) + 4096 * (s / 4096 % 16)
          = s % 65536) := by
  have hnib : wots16MessageNibbles message
      = message.flatMap fun b => [b / 16 % 16, b % 16] := by
    rw [wots16MessageNibbles,
      ← flatMap_range_getD (fun b => [b / 16 % 16, b % 16]) 0 message, hlen]
  constructor
  · unfold signWOTS16
    rw [if_neg (by omega)]
    exact ⟨_, rfl, by simp only [wots16Checksum, hnib],
      by rw [length_nibble_flatMap, hlen]⟩
  · intro s
    omega

/-- Witness for C3 at the all-zero 32-byte message (maximum checksum
`64 * 15 = 960`, no overflow). -/
theorem signWOTS16_nibbles_checksum_witness :
    (∃ sig, signWOTS16 (fun _ => [0]) ⟨[], [], []⟩ (List.replicate 32 0) = .ok sig
      ∧ sig.messageChunks
          = ((List.replicate 32 0).flatMap fun b => [b / 16 % 16, b % 16])
            ++ [wots16Checksum ((List.replicate 32 0).flatMap fun b => [b / 16 % 16, b % 16]) % 16,
                wots16Checksum ((List.replicate 32 0).flatMap fun b => [b / 16 % 16, b % 16]) / 16 % 16,
                wots16Checksum ((List.replicate 32 0).flatMap fun b => [b / 16 % 16, b % 16]) / 256 % 16,
                wots16Checksum ((List.replicate 32 0).flatMap fun b => [b / 16 % 16, b % 16]) / 4096 % 16]
      ∧ ((List.replicate 32 0).flatMap fun b => [b / 16 % 16, b % 16]).length = 64)
    ∧ (∀ s : Nat,
        s % 16 + 16 * (s / 16 % 16) + 256 * (s / 256 % 16) + 4096 * (s / 4096 % 16)
          = s % 65536) :=
  signWOTS16_nibbles_checksum (fun _ => [0]) ⟨[], [], []⟩ (List.replicate 32 0) (by simp)

-- =============================================================================
-- C2 — part order of the WOTS-16 covenant unlocking script
-- =============================================================================

/-- A concrete 68-chunk signature used by the C2 counterexample (all chunk
values 32 zero bytes, `remaining = 15`). -/
def cexChunks : List SigChunk :=
  List.replicate 68 { value := List.replicate 32 0, iterations := 0, remaining := 15 }

/-- C2 counterexample: with preimage `[0x01]`, covenant signature `[0x02]`
and 68 concrete chunks, the unlocking script actually assembled by
`buildWOTS16CovenantTransaction` differs from the spec's claimed order
(covenant signature first, then preimage, then chunks); so does the
`buildWOTS16UnlockingScriptWithCovenant` helper. -/
theorem covenantUnlockingOrder_counterexample :
    wots16CovenantUnlockingScript [0x01] [0x02] cexChunks
      ≠ specClaimedCovenantUnlockingOrder [0x02] [0x01] cexChunks
    ∧ buildWOTS16UnlockingScriptWithCovenant cexChunks [0x01] [0x02]
      ≠ specClaimedCovenantUnlockingOrder [0x02] [0x01] cexChunks := by
  constructor <;> decide

/-- C2 amended: in `buildWOTS16CovenantTransaction` the unlocking script
carries the sighash preimage push first, then the covenant-signature push,
then the 68 WOTS16 chunk pushes in reverse chunk order; in the
`buildWOTS16UnlockingScriptWithCovenant` helper the chunk pushes come
first, then the covenant signature, then the preimage. -/
theorem covenantUnlockingOrder_amended (preimage ecdsaSigWithType : Bytes)
    (chunks : List SigChunk) :
    wots16CovenantUnlockingScript preimage ecdsaSigWithType chunks
      = encodePushData preimage ++ encodePushData ecdsaSigWithType
        ++ chunks.reverse.flatMap pushChunkC
    ∧ buildWOTS16UnlockingScriptWithCovenant chunks preimage ecdsaSigWithType
      = chunks.reverse.flatMap pushChunkW
        ++ encodePushData ecdsaSigWithType ++ encodePushData preimage := by
  constructor
  · unfold wots16CovenantUnlockingScript
    rw [flatMap_range_reverse_getD]
  · unfold buildWOTS16UnlockingScriptWithCovenant
    rw [flatMap_range_reverse_getD]

-- =============================================================================
-- C7 — restoration integrity checks
-- =============================================================================

/-- A constant stand-in hash function used by concrete counterexamples and
witnesses (the code paths under test never depend on the hash function's
structure). -/
def constHash : Bytes → Bytes := fun _ => [0]

/-- A stored WOTS-16 secret whose stored `publicKeyHash` (`[7]`) does not
match the hash recomputable from its private scalars under `constHash`. -/
def cexWots16Data : WOTS16SecretData :=
  { privateScalars := [[5]], publicCommitments := [[6]], publicKeyHash := [7] }

/-- A vault secret whose 32-chunk keypair is consistent under `constHash`
but whose `wots16` sub-object carries a mismatching stored hash. -/
def cexSecret : Secret :=
  { privateKey := List.replicate 1024 0
    publicKeyHash := [0]
    lockingScript := [0x51]
    wots16 := some cexWots16Data }

/-- C7 counterexample: restoration succeeds on a secret whose WOTS-16
sub-object has a stored public-key hash that does not match the hash
recomputed (15 SHA applications per scalar, concatenate, hash) from its
stored private scalars — and the covenant spend builder adopts that stored
hash and the stored commitments verbatim.  So the WOTS-16 keypair of an
ultimate-tier secret is used without recomputation or cross-check. -/
theorem restoreVault_wots16_unchecked_counterexample :
    (∃ v, restoreVaultFromSecret constHash cexSecret = .ok v)
    ∧ constHash ((cexWots16Data.privateScalars.map fun s => constHash^[15] s).flatten)
        ≠ cexWots16Data.publicKeyHash
    ∧ wots16KeypairFromSecret cexWots16Data
        = { privateScalars := cexWots16Data.privateScalars
            publicCommitments := cexWots16Data.publicCommitments
            publicKeyHash := cexWots16Data.publicKeyHash } := by
  exact ⟨⟨_, rfl⟩, by decide, rfl⟩

/-- C7 amended: `restoreVaultFromSecret` recomputes the 32-chunk keypair's
public-key hash from the raw private scalars and fails with the
"Corrupted secret" error exactly when it mismatches the stored hash; its
outcome is independent of the `wots16` sub-object, and the WOTS-16 keypair
used by `buildWOTS16CovenantTransaction` is rebuilt from the stored
commitments and stored hash with no recomputation. -/
theorem restoreVault_mainHashCheck_amended (sha : Bytes → Bytes) (secret : Secret)
    (hpk : secret.privateKey ≠ []) (hpkh : secret.publicKeyHash ≠ [])
    (hlen : secret.privateKey.length = CHUNKS * SCALAR_SIZE) :
    (recomputedPublicKeyHash sha secret.privateKey = secret.publicKeyHash →
      ∃ v, restoreVaultFromSecret sha secret = .ok v
        ∧ v.publicKeyHash = recomputedPublicKeyHash sha secret.privateKey)
    ∧ (recomputedPublicKeyHash sha secret.privateKey ≠ secret.publicKeyHash →
      restoreVaultFromSecret sha secret
        = .error "Corrupted secret: public key hash mismatch")
    ∧ (∀ w, restoreVaultFromSecret sha { secret with wots16 := w }
        = restoreVaultFromSecret sha secret)
    ∧ (∀ w, wots16KeypairFromSecret w
        = { privateScalars := w.privateScalars
            publicCommitments := w.publicCommitments
            publicKeyHash := w.publicKeyHash }) := by
  have hkp : restoreKeypairFromPrivate sha secret.privateKey
      = .ok { privateScalars := (List.range CHUNKS).map fun i =>
                (secret.privateKey.drop (i * SCALAR_SIZE)).take SCALAR_SIZE
              publicCommitments := ((List.range CHUNKS).map fun i =>
                (secret.privateKey.drop (i * SCALAR_SIZE)).take SCALAR_SIZE).map fun scalar =>
                  iteratedSha256 sha scalar MAX_ITERATIONS
              publicConcatenated := (((List.range CHUNKS).map fun i =>
                (secret.privateKey.drop (i * SCALAR_SIZE)).take SCALAR_SIZE).map fun scalar =>
                  iteratedSha256 sha scalar MAX_ITERATIONS).flatten
              publicKeyHash := recomputedPublicKeyHash sha secret.privateKey } := by
    unfold restoreKeypairFromPrivate
    rw [if_neg (by omega)]
    rfl
  have hcond : ¬ (secret.privateKey = [] ∨ secret.publicKeyHash = []) := by
    intro h
    rcases h with h | h
    · exact hpk h
    · exact hpkh h
  refine ⟨?_, ?_, ?_, fun w => rfl⟩
  · intro hmatch
    unfold restoreVaultFromSecret
    rw [if_neg hcond, hkp]
    dsimp only
    rw [if_neg (fun h => h hmatch)]
    exact ⟨_, rfl, rfl⟩
  · intro hmismatch
    unfold restoreVaultFromSecret
    rw [if_neg hcond, hkp]
    dsimp only
    rw [if_pos hmismatch]
  · intro w
    rfl

/-- Witness for the C7 amended theorem: a concrete secret whose stored main
hash (`[1]`) mismatches the recomputed one is rejected with the
corrupted-secret error. -/
theorem restoreVault_mainHashCheck_amended_witness :
    restoreVaultFromSecret constHash
      { privateKey := List.replicate 1024 0, publicKeyHash := [1],
        lockingScript := [], wots16 := none }
      = .error "Corrupted secret: public key hash mismatch" :=
  (restoreVault_mainHashCheck_amended constHash
    { privateKey := List.replicate 1024 0, publicKeyHash := [1],
      lockingScript := [], wots16 := none }
    (by simp) (by simp) (by simp [CHUNKS, SCALAR_SIZE])).2.1 (by decide)

-- =============================================================================
-- C8 — fee/output invariant of the sweep builders
-- =============================================================================

/-- C8: for all funding UTXOs with total `T` and computed fee `F`, each
sweep builder either fails with its insufficient-funds error (when
`T − F < 546`, the minimum-output floor) or returns a transaction whose
single output carries exactly `T − F`; `buildRawTransaction` always
serializes exactly one output (output count varint `1`) with that value,
so no transaction with a negative or below-minimum output is ever
produced. -/
theorem sweep_fee_output_invariant (sha : Bytes → Bytes) (utxos : List UTXO) (vault : Vault)
    (toAddress : List Char) (feeRate : ℚ) (outScript : Bytes) (T F F' : Int)
    (hwf : sha vault.keypair.publicConcatenated = vault.keypair.publicKeyHash)
    (haddr : buildOutputScript toAddress = .ok outScript)
    (hT : T = (utxos.map fun u => (u.value : Int)).sum)
    (hF : F = sweepFeeServer vault.keypair.publicConcatenated.length utxos.length feeRate)
    (hF' : F' = sweepFeeStandard vault.keypair.publicConcatenated.length utxos.length feeRate) :
    (T - F < (CONFIG_MIN_OUTPUT : Int) →
      buildSweepTransaction sha utxos vault toAddress feeRate
        = .error (insufficientMsgServer T F (T - F)))
    ∧ ((CONFIG_MIN_OUTPUT : Int) ≤ T - F →
      ∃ r, buildSweepTransaction sha utxos vault toAddress feeRate = .ok r
        ∧ r.outputValue = T - F
        ∧ r.rawTx = buildRawTransaction utxos vault.lockingScript
            (buildUnlockingScript vault) outScript (T - F).toNat)
    ∧ (T - F' < (CONFIG_MIN_OUTPUT : Int) →
      buildStandardSweepTransaction sha utxos vault toAddress feeRate
        = .error (insufficientMsgStandard T F' (T - F')))
    ∧ ((CONFIG_MIN_OUTPUT : Int) ≤ T - F' →
      ∃ r, buildStandardSweepTransaction sha utxos vault toAddress feeRate = .ok r
        ∧ r.outputValue = T - F'
        ∧ r.rawTx = buildRawTransaction utxos vault.lockingScript
            (buildUnlockingScript vault) outScript (T - F').toNat)
    ∧ (∀ lockingScript scriptSig outputScript outputValue,
        buildRawTransaction utxos lockingScript scriptSig outputScript outputValue
          = [0x01, 0x00, 0x00, 0x00]
            ++ encodeVarInt utxos.length
            ++ (utxos.flatMap fun utxo =>
                  utxo.tx_hash.reverse
                  ++ uint32LE utxo.tx_pos
                  ++ encodeVarInt scriptSig.length ++ scriptSig
                  ++ [0xff, 0xff, 0xff, 0xff])
            ++ encodeVarInt 1
            ++ uint64LE outputValue
            ++ encodeVarInt outputScript.length ++ outputScript
            ++ [0x00, 0x00, 0x00, 0x00]) := by
  subst hT hF hF'
  have hud : createUnlockingData sha vault = .ok
      { wotsPreimage := vault.keypair.publicConcatenated
        scriptSig := buildUnlockingScript vault
        preimageSize := vault.keypair.publicConcatenated.length } := by
    unfold createUnlockingData
    rw [if_neg (fun h => h hwf)]
  refine ⟨?_, ?_, ?_, ?_, fun ls ss os v => rfl⟩
  · intro h
    unfold buildSweepTransaction
    rw [hud]
    dsimp only
    rw [if_pos h]
  · intro h
    unfold buildSweepTransaction
    rw [hud]
    dsimp only
    rw [if_neg (by omega), haddr]
    exact ⟨_, rfl, rfl, rfl⟩
  · intro h
    unfold buildStandardSweepTransaction
    rw [haddr]
    dsimp only
    rw [hud]
    dsimp only
    rw [if_pos h]
  · intro h
    unfold buildStandardSweepTransaction
    rw [haddr]
    dsimp only
    rw [hud]
    dsimp only
    rw [if_neg (by omega)]
    exact ⟨_, rfl, rfl, rfl⟩

/-- A concrete empty-keypair vault consistent under `constHash`, used by
the C8 witness. -/
def witnessVault : Vault :=
  { keypair := { privateScalars := [], publicCommitments := [],
                 publicConcatenated := [], publicKeyHash := [0] }
    lockingScript := [] }

/-- Witness for C8: a single 1000-sat input at fee rate 1 yields the
single-output transaction with value `1000 − 87`. -/
theorem sweep_fee_output_invariant_witness :
    ∃ r, buildSweepTransaction constHash [witnessUtxo] witnessVault ['1'] 1 = .ok r
      ∧ r.outputValue = (1000 : Int) - 87
      ∧ r.rawTx = buildRawTransaction [witnessUtxo] witnessVault.lockingScript
          (buildUnlockingScript witnessVault)
          [0x76, 0xa9, 0x14, 0x00, 0x88, 0xac] ((1000 : Int) - 87).toNat :=
  (sweep_fee_output_invariant constHash [witnessUtxo] witnessVault ['1'] 1
    [0x76, 0xa9, 0x14, 0x00, 0x88, 0xac] 1000 87 90
    rfl (by rfl) (by decide)
    (by simp only [witnessVault]; norm_num [sweepFeeServer])
    (by simp only [witnessVault]; norm_num [sweepFeeStandard])).2.1 (by decide)

end QBV
